import Mathlib

/-!
Shallow embedding of the account-lockout and session-token core of the
finance-fusion repository (`src/database/models/users.rs`,
`src/database/models/sessions/manager.rs`, `src/database/models/sessions/claims.rs`,
`src/routes/auth.rs`, `src/middleware/auth.rs`, `src/errors.rs`).

Modelling conventions:
* Timestamps (`chrono::NaiveDateTime`, UNIX seconds) are `Int`.
* The database is a reliable in-memory record store: a list of rows in
  insertion order; diesel's `.first()` is the head of the filtered list,
  `insert` appends, `delete` filters rows out.  Store I/O failures
  (`diesel::result::Error` other than `NotFound`) are outside the model:
  every modelled write succeeds, so `save_changes` returns `Ok`.
* Rust `i32` arithmetic that can overflow is wrapped to two's-complement
  32-bit (`wrap32`), matching release-mode semantics.
* The jsonwebtoken library is an external collaborator; it is modelled as a
  signing scheme with perfect integrity: a token carries its claims plus a
  signature, `decode` accepts exactly the tokens whose signature matches the
  secret and whose `exp` claim passes the default validation
  (`validate_exp = true`, `leeway = 60`, `validate_nbf = false`).
-/

deriving instance DecidableEq for Except

namespace FinanceFusion

/-- Error kinds of `AuthenticateError` in `src/errors.rs`.  The enum in
`errors.rs` declares `WrongCredentials`, `TokenCreation`, `InvalidToken` and
`Locked`; the variant `SessionExpired` is referenced by
`Session::from_user_id` in `src/database/models/sessions/manager.rs` and is
included here from that use site. -/
inductive AuthenticateError where
  | WrongCredentials
  | TokenCreation
  | InvalidToken
  | Locked
  | SessionExpired
  deriving DecidableEq, Repr

/-- Store-level diesel errors relevant to this core: a `first()` on an empty
result set yields `diesel::result::Error::NotFound`; every other store
failure is collapsed into `Other` (opaque cause). -/
inductive DieselError where
  | NotFound
  | Other
  deriving DecidableEq, Repr

/-- The variants of `AppError` (`src/errors.rs`) exercised by the
authentication core. -/
inductive AppError where
  | Diesel (e : DieselError)
  | Authenticate (e : AuthenticateError)
  | NotFound
  | BadRequest
  deriving DecidableEq, Repr

/-- Two's-complement wrap of an integer into the `i32` range, the
release-mode semantics of Rust `i32` multiplication. -/
def wrap32 (n : Int) : Int :=
  (n + 2 ^ 31) % 2 ^ 32 - 2 ^ 31

/-- The `User` row (`src/database/models/users.rs`, struct `User`): identity,
credential hash and the lockout-policy fields. -/
structure User where
  id : Int
  username : String
  pw_hash : String
  two_fa_secret : Option String
  created_at : Int
  is_dev_mode : Bool
  invalid_login_attempts : Int
  lock_duration_s : Int
  lock_duration_factor : Int
  lock_duration_cap_s : Int
  locked_until : Option Int
  deriving DecidableEq, Repr

/-- The row `User::new` inserts: `NewUser { username, pw_hash: password }`
with every other column filled by the database defaults asserted by
`test_new_user` (`is_dev_mode = false`, `invalid_login_attempts = 0`,
`lock_duration_s = 60`, `lock_duration_factor = 2`,
`lock_duration_cap_s = 3600`, `locked_until = None`); the store assigns
`id` and `created_at`. -/
def User.new (id : Int) (now : Int) (username password : String) : User :=
  { id := id
    username := username
    pw_hash := password
    two_fa_secret := none
    created_at := now
    is_dev_mode := false
    invalid_login_attempts := 0
    lock_duration_s := 60
    lock_duration_factor := 2
    lock_duration_cap_s := 3600
    locked_until := none }

/-- `User::is_locked`: true iff `locked_until` is set. -/
def User.is_locked (u : User) : Bool :=
  u.locked_until.isSome

/-- `User::check_password`: plain string equality against the stored
`pw_hash` (the `bcrypt::verify` call is commented out in the source). -/
def User.check_password (u : User) (password : String) : Bool :=
  u.pw_hash == password

/-- `User::unlock` (`src/database/models/users.rs:236-253`; the duplicate in
`src/database/users.rs:223-240` is line-for-line the same).  If
`locked_until` is unset, return `Ok` unchanged.  If `locked_until` is in the
past (`locked_until < now`), return `Ok` **without touching any field**.
Otherwise — the lock expiry still in the future — clear `locked_until`,
reset `invalid_login_attempts` to 0 and persist (`save_changes`, which
succeeds in the reliable-store model). -/
def User.unlock (u : User) (now : Int) : Except AppError User :=
  match u.locked_until with
  | none => .ok u
  | some lockedUntil =>
    if lockedUntil < now then
      .ok u
    else
      .ok { u with locked_until := none, invalid_login_attempts := 0 }

/-- `User::lock`: `lock_duration = (lock_duration_s * lock_duration_factor)
.min(lock_duration_cap_s)` (i32 arithmetic), then
`locked_until = now + lock_duration`, persisted via `save_changes`. -/
def User.lock (u : User) (now : Int) : User :=
  let lockDuration :=
    min (wrap32 (u.lock_duration_s * u.lock_duration_factor)) u.lock_duration_cap_s
  { u with locked_until := some (now + lockDuration) }

/-- `User::reset_invalid_login_attempts`: sets `invalid_login_attempts := 0`
**and** `lock_duration_factor := 3600`, then persists. -/
def User.reset_invalid_login_attempts (u : User) : User :=
  { u with invalid_login_attempts := 0, lock_duration_factor := 3600 }

/-- `User::increment_invalid_login_attempts`: adds 1 to
`invalid_login_attempts`; if the new count is ≥ 3, calls `lock` (which
persists).  Note: when the new count is below 3 the increment is not
followed by any store write in the source. -/
def User.increment_invalid_login_attempts (u : User) (now : Int) : User :=
  let u' := { u with invalid_login_attempts := u.invalid_login_attempts + 1 }
  if 3 ≤ u'.invalid_login_attempts then u'.lock now else u'

/-- The `Session` row (`src/database/models/sessions/manager.rs`, struct
`Session`). -/
structure Session where
  id : Int
  user_id : Int
  expires_at : Int
  created_at : Int
  deriving DecidableEq, Repr

/-- The `sessions` table: rows in insertion order; the store assigns ids
from a monotone counter.  Diesel's `.first()` is the head of the filtered
row list. -/
structure SessionStore where
  rows : List Session
  nextId : Int
  deriving DecidableEq, Repr

/-- The empty sessions table. -/
def SessionStore.empty : SessionStore :=
  { rows := [], nextId := 1 }

/-- `Session::delete`: `DELETE FROM sessions WHERE id = self.id`. -/
def Session.delete (s : Session) (st : SessionStore) : SessionStore :=
  { st with rows := st.rows.filter (fun r => !(r.id == s.id)) }

/-- `Session::from_user_id` (`manager.rs:99-117`): fetch the first session
row with the given `user_id` (diesel `NotFound` when there is none); if
`now < expires_at` return it and leave the store unchanged, otherwise delete
the row and fail with `SessionExpired`. -/
def Session.from_user_id (st : SessionStore) (now : Int) (user_id : Int) :
    SessionStore × Except AppError Session :=
  match st.rows.find? (fun s => s.user_id == user_id) with
  | none => (st, .error (.Diesel .NotFound))
  | some session =>
    if now < session.expires_at then
      (st, .ok session)
    else
      (session.delete st, .error (.Authenticate .SessionExpired))

/-- The row `Session::new` inserts: `NewSession { user_id, expires_at }`
with `expires_at = now + Duration::days(1)`; the store assigns `id` and
`created_at`. -/
def SessionStore.insert (st : SessionStore) (user_id now : Int) : SessionStore :=
  let row : Session :=
    { id := st.nextId, user_id := user_id, expires_at := now + 86400, created_at := now }
  { rows := st.rows ++ [row], nextId := st.nextId + 1 }

/-- `Session::new` (`manager.rs:50-67`): insert a fresh row with
`expires_at = now + 24h`, then return `Session::from_user_id` — i.e. the
**first** stored session for that user, not necessarily the row just
inserted. -/
def Session.new (st : SessionStore) (now : Int) (user_id : Int) :
    SessionStore × Except AppError Session :=
  Session.from_user_id (st.insert user_id now) now user_id

/-- The JWT claims struct (`src/database/models/sessions/claims.rs`). -/
structure Claims where
  user_id : Int
  exp : Int
  iat : Int
  nbf : Int
  deriving DecidableEq, Repr

/-- `Claims::from`: claims derived from a session — `exp` is the session's
`expires_at` timestamp, `iat` and `nbf` are the current time. -/
def Claims.from (session : Session) (now : Int) : Claims :=
  { user_id := session.user_id
    exp := session.expires_at
    iat := now
    nbf := now }

/-- A signed token: its claims together with the signature the jsonwebtoken
library computed over them with the server secret. -/
structure Token where
  claims : Claims
  sig : String
  deriving DecidableEq, Repr

/-- Model of the HMAC signature of the jsonwebtoken library: a deterministic
tag over the secret and the claim fields; verification compares tags for
equality (perfect integrity). -/
def signClaims (secret : String) (c : Claims) : String :=
  secret ++ "#" ++ toString c.user_id ++ "#" ++ toString c.exp ++ "#"
    ++ toString c.iat ++ "#" ++ toString c.nbf

/-- Model of `jsonwebtoken::encode`: attach the signature to the claims. -/
def jwtEncode (secret : String) (c : Claims) : Token :=
  { claims := c, sig := signClaims secret c }

/-- Model of `jsonwebtoken::decode` under `Validation::default()`
(`validate_exp = true` with `leeway = 60`, `validate_nbf = false`): the
claims when the signature matches and `exp` has not passed more than the
leeway ago, `none` on any library-level failure. -/
def jwtDecode (secret : String) (now : Int) (t : Token) : Option Claims :=
  if t.sig == signClaims secret t.claims && now - 60 ≤ t.claims.exp then
    some t.claims
  else
    none

/-- `Session::token` (`manager.rs:150-162`): encode `Claims::from(self)`
with the server secret.  The `TokenCreation` failure path is an internal
signing failure of the library, which does not occur in the model. -/
def Session.token (secret : String) (now : Int) (s : Session) : Except AppError Token :=
  .ok (jwtEncode secret (Claims.from s now))

/-- `Session::from_token` (`manager.rs:129-143`): decode and verify the
token — any decode failure becomes `Authenticate InvalidToken` — then
re-resolve the session from the store by the `user_id` claim. -/
def Session.from_token (st : SessionStore) (secret : String) (now : Int) (t : Token) :
    SessionStore × Except AppError Session :=
  match jwtDecode secret now t with
  | none => (st, .error (.Authenticate .InvalidToken))
  | some claims => Session.from_user_id st now claims.user_id

/-- `User::from_username` (`models/users.rs:191-199`): first user row with
the given username; an empty result set is diesel's `NotFound`, surfaced as
`AppError::Diesel`. -/
def User.from_username (db : List User) (username : String) : Except AppError User :=
  match db.find? (fun u => u.username == username) with
  | some u => .ok u
  | none => .error (.Diesel .NotFound)

/-- `User::authenticate` (`models/users.rs:201-225`), operating on the
loaded user row and the sessions table.  Returns the in-memory user after
the attempt, the updated sessions table and the result.
Control flow of the source: `if self.is_locked() && self.unlock(conn).is_err()`
fail with `Locked` (the `unlock` error can only be a store-write failure,
which the reliable-store model rules out); then a failed `check_password`
increments the attempt counter (locking at 3) and fails with
`WrongCredentials`; otherwise reset the counter and create a session. -/
def User.authenticate (u : User) (st : SessionStore) (now : Int) (password : String) :
    User × SessionStore × Except AppError Session :=
  match (if u.is_locked then u.unlock now else .ok u) with
  | .error _ => (u, st, .error (.Authenticate .Locked))
  | .ok u1 =>
    if !(u1.check_password password) then
      (u1.increment_invalid_login_attempts now, st,
        .error (.Authenticate .WrongCredentials))
    else
      let u2 := u1.reset_invalid_login_attempts
      match Session.new st now u2.id with
      | (st', .ok session) => (u2, st', .ok session)
      | (st', .error e) => (u2, st', .error e)

/-- The `login` route handler (`src/routes/auth.rs:49-68`): look the user up
by username (`?` propagates the lookup error unchanged), authenticate, and
encode the session into the cookie token.  The value returned to the client
is modelled; user-row persistence flows through `save_changes` inside the
called operations. -/
def login (db : List User) (st : SessionStore) (secret : String) (now : Int)
    (username password : String) : Except AppError Token :=
  match User.from_username db username with
  | .error e => .error e
  | .ok user =>
    match user.authenticate st now password with
    | (_, _, .error e) => .error e
    | (_, _, .ok session) => Session.token secret now session

/-- The `jwt_auth` middleware (`src/middleware/auth.rs:14-45`).  The input
`tokenOpt` is the token extracted from the `token=` cookie, `none` when the
cookie is missing.  When a token is present, `if let Ok(session) =
Session::from_token(..)` accepts it; every other outcome — no cookie, or
`from_token` failing with any error whatsoever — falls through to
`Err(AppError::Authenticate(InvalidToken))`. -/
def jwt_auth (st : SessionStore) (secret : String) (now : Int) (tokenOpt : Option Token) :
    SessionStore × Except AppError Session :=
  match tokenOpt with
  | none => (st, .error (.Authenticate .InvalidToken))
  | some t =>
    match Session.from_token st secret now t with
    | (st', .ok session) => (st', .ok session)
    | (st', .error _) => (st', .error (.Authenticate .InvalidToken))

/-! Sample inputs used by the concrete theorems below. -/

/-- A user registered as "alice" with password "hunter2" (store id 1,
created at time 0, all lockout fields at their defaults). -/
def alice : User := User.new 1 0 "alice" "hunter2"

/-- Alice with 2 prior failed attempts and a lock that expired at time 50. -/
def aliceLockedPast : User :=
  { alice with invalid_login_attempts := 2, locked_until := some 50 }

/-- Alice with 2 prior failed attempts and a lock that runs until time 200. -/
def aliceLockedFuture : User :=
  { alice with invalid_login_attempts := 2, locked_until := some 200 }

/-- Alice with 2 prior failed attempts and no lock. -/
def aliceTwoFailures : User :=
  { alice with invalid_login_attempts := 2 }

/-- A user registered as "bob" with password "pw" (store id 2), with 2
prior failed attempts. -/
def bob : User := { User.new 2 0 "bob" "pw" with invalid_login_attempts := 2 }

/-- Alice's 1st login attempt, with a wrong password, at time 0, against an
empty session table. -/
def attempt1 : User × SessionStore × Except AppError Session :=
  alice.authenticate SessionStore.empty 0 "wrong"

/-- The 2nd consecutive wrong-password attempt, at time 1. -/
def attempt2 : User × SessionStore × Except AppError Session :=
  attempt1.1.authenticate attempt1.2.1 1 "wrong"

/-- The 3rd consecutive wrong-password attempt, at time 2. -/
def attempt3 : User × SessionStore × Except AppError Session :=
  attempt2.1.authenticate attempt2.2.1 2 "wrong"

/-- The 4th attempt, now with the correct password, at time 3 — while the
lock set by the 3rd failure (until time 122) is still in force. -/
def attempt4 : User × SessionStore × Except AppError Session :=
  attempt3.1.authenticate attempt3.2.1 3 "hunter2"

/-! Helper lemmas about the list-backed store. -/

/-- When filtering keeps exactly one element, searching finds that element. -/
theorem find?_of_filter_eq_singleton {α : Type} (p : α → Bool) (l : List α) (s : α)
    (h : l.filter p = [s]) : l.find? p = some s := by
  induction l with
  | nil => simp at h
  | cons a t ih =>
    by_cases hp : p a
    · rw [List.filter_cons_of_pos hp] at h
      obtain ⟨rfl, -⟩ := List.cons_eq_cons.mp h
      simp [List.find?_cons, hp]
    · rw [List.filter_cons_of_neg hp] at h
      have := ih h
      simp [List.find?_cons, hp, this]

/-- Two's-complement wrap is the identity on values already in `i32` range. -/
theorem wrap32_eq_self {n : Int} (hlo : -(2 ^ 31) ≤ n) (hhi : n < 2 ^ 31) :
    wrap32 n = n := by
  unfold wrap32
  rw [Int.emod_eq_of_lt (by omega) (by omega)]
  omega

/-! Claim theorems. -/

/-- C1 (code bug): the claim says that `unlock` with `locked_until = t ≤ now`
clears the lock and resets the attempt counter, and with `t > now` leaves the
state untouched while reporting still-locked.  The source does the opposite on
both sides: at `now = 100`, a lock expired at 50 is left fully in place
(`unlock` returns the user unchanged), while a lock running until 200 is
cleared, the counter reset and the call reports success. -/
theorem c1_unlock_inverted :
    (User.unlock aliceLockedPast 100 = .ok aliceLockedPast
      ∧ aliceLockedPast.locked_until = some 50
      ∧ aliceLockedPast.invalid_login_attempts = 2)
    ∧ User.unlock aliceLockedFuture 100
        = .ok { aliceLockedFuture with locked_until := none,
                                       invalid_login_attempts := 0 } := by
  decide

/-- C2 (code bug): the claim says a user whose `locked_until` is in the future
fails `authenticate` with `Locked` before the password is compared, so after 3
wrong passwords a 4th attempt with the correct password still returns `Locked`.
In the source, the inverted `unlock` clears a still-active lock and returns
`Ok`, so the 4th attempt at time 3 — while `locked_until = 122` is in force —
succeeds and creates a session instead of failing with `Locked`. -/
theorem c2_locked_account_authenticates :
    attempt3.1.locked_until = some 122
    ∧ attempt3.1.invalid_login_attempts = 3
    ∧ attempt3.2.2 = .error (.Authenticate .WrongCredentials)
    ∧ attempt4.2.2 = .ok { id := 1, user_id := 1, expires_at := 86403, created_at := 3 }
    ∧ attempt4.2.2 ≠ .error (.Authenticate .Locked) := by
  decide

/-- C3 (counterexample): authenticating a username with no user record does
not fail with `WrongCredentials` — the `login` route propagates the store's
diesel `NotFound` error unchanged, which is distinguishable from the
wrong-password kind. -/
theorem c3_unknown_username_counterexample :
    login [] SessionStore.empty "secret" 0 "alice" "pw"
      = .error (.Diesel .NotFound)
    ∧ login [] SessionStore.empty "secret" 0 "alice" "pw"
      ≠ .error (.Authenticate .WrongCredentials) := by
  decide

/-- C3 (amended): for every store state with no user record for the supplied
username, `login` fails with the store-level `Diesel NotFound` error — a kind
distinct from `WrongCredentials`, so an unknown username is distinguishable
from a wrong password. -/
theorem c3_unknown_username_diesel_error
    (db : List User) (st : SessionStore) (secret : String) (now : Int)
    (username password : String)
    (h : db.find? (fun u => u.username == username) = none) :
    login db st secret now username password = .error (.Diesel .NotFound) := by
  unfold login User.from_username
  rw [h]

/-- Witness for `c3_unknown_username_diesel_error` at the empty user table. -/
theorem c3_witness :
    login [] SessionStore.empty "secret" 0 "alice" "pw"
      = .error (.Diesel .NotFound) :=
  c3_unknown_username_diesel_error [] SessionStore.empty "secret" 0 "alice" "pw" rfl

/-- C4 (code bug): the claim says a successful authentication resets the
attempt counter and changes no other lockout-policy field.  In the source,
`reset_invalid_login_attempts` also overwrites `lock_duration_factor` with
3600: bob's factor is 2 before his successful login and 3600 after it. -/
theorem c4_success_mutates_lock_factor :
    bob.lock_duration_factor = 2
    ∧ (bob.authenticate SessionStore.empty 0 "pw").2.2
        = .ok { id := 1, user_id := 2, expires_at := 86400, created_at := 0 }
    ∧ (bob.authenticate SessionStore.empty 0 "pw").1.invalid_login_attempts = 0
    ∧ (bob.authenticate SessionStore.empty 0 "pw").1.lock_duration_factor = 3600 := by
  decide

/-- C9: the credential check succeeds exactly when the candidate password is
byte-for-byte equal to the stored `pw_hash`, and registration (`User::new`)
stores the supplied password verbatim as `pw_hash` — no hash function is
applied on either side. -/
theorem c9_password_stored_and_compared_verbatim :
    (∀ (u : User) (p : String), u.check_password p = true ↔ u.pw_hash = p)
    ∧ ∀ (id now : Int) (username password : String),
        (User.new id now username password).pw_hash = password := by
  constructor
  · intro u p
    simp [User.check_password]
  · intro id now username password
    rfl

/-- C7: a failed credential check increments `invalid_login_attempts` by
exactly 1; when the new count reaches at least 3 the account is locked until
`now + min(lock_duration_s * lock_duration_factor, lock_duration_cap_s)`
(the range hypotheses keep the `i32` product from wrapping, as it does not
for any value the code itself installs), and below the threshold the lock
field is untouched; with the default field values (base 60, factor 2,
cap 3600) the 3rd consecutive failure sets `locked_until = now + 120`. -/
theorem c7_failure_increments_and_locks (u : User) (now : Int)
    (hlo : -(2 ^ 31) ≤ u.lock_duration_s * u.lock_duration_factor)
    (hhi : u.lock_duration_s * u.lock_duration_factor < 2 ^ 31) :
    (u.increment_invalid_login_attempts now).invalid_login_attempts
      = u.invalid_login_attempts + 1
    ∧ (3 ≤ u.invalid_login_attempts + 1 →
        (u.increment_invalid_login_attempts now).locked_until
          = some (now + min (u.lock_duration_s * u.lock_duration_factor)
                            u.lock_duration_cap_s))
    ∧ (u.invalid_login_attempts + 1 < 3 →
        (u.increment_invalid_login_attempts now).locked_until = u.locked_until)
    ∧ (u.invalid_login_attempts = 2 → u.lock_duration_s = 60 →
        u.lock_duration_factor = 2 → u.lock_duration_cap_s = 3600 →
        (u.increment_invalid_login_attempts now).locked_until = some (now + 120)) := by
  refine ⟨?_, ?_, ?_, ?_⟩
  · simp only [User.increment_invalid_login_attempts, User.lock]
    split <;> rfl
  · intro h
    simp only [User.increment_invalid_login_attempts, User.lock]
    rw [if_pos (by simpa using h)]
    simp [wrap32_eq_self hlo hhi]
  · intro h
    simp only [User.increment_invalid_login_attempts, User.lock]
    rw [if_neg (by omega)]
  · intro h2 hs hf hc
    simp only [User.increment_invalid_login_attempts, User.lock]
    rw [if_pos (by omega)]
    simp only [hs, hf, hc, h2]
    rw [wrap32_eq_self (by decide) (by decide)]
    norm_num

/-- Witness for `c7_failure_increments_and_locks`: alice with 2 prior
failures and default policy fields fails again at time 1000 and is locked
until 1120. -/
theorem c7_witness :
    (aliceTwoFailures.increment_invalid_login_attempts 1000).invalid_login_attempts
      = aliceTwoFailures.invalid_login_attempts + 1
    ∧ (aliceTwoFailures.increment_invalid_login_attempts 1000).locked_until
      = some (1000 + 120) :=
  ⟨(c7_failure_increments_and_locks aliceTwoFailures 1000 (by decide) (by decide)).1,
   (c7_failure_increments_and_locks aliceTwoFailures 1000 (by decide) (by decide)).2.2.2
     rfl rfl rfl rfl⟩

/-- C10: whatever the middleware input — a missing `token` cookie, or a token
that `Session::from_token` rejects for any reason (bad signature, expired
claims, expired store-side session, store lookup failure) — `jwt_auth`
reports the single error kind `Authenticate InvalidToken`; `SessionExpired`
and the diesel store-error kinds never reach its caller. -/
theorem c10_all_failures_invalid_token
    (st st' : SessionStore) (secret : String) (now : Int)
    (tokenOpt : Option Token) (e : AppError)
    (h : jwt_auth st secret now tokenOpt = (st', .error e)) :
    e = .Authenticate .InvalidToken := by
  rcases tokenOpt with - | t
  · simp [jwt_auth] at h
    exact h.2.symm
  · rcases hft : Session.from_token st secret now t with ⟨st'', res⟩
    rcases res with e' | s <;> simp [jwt_auth, hft] at h
    exact h.2.symm

/-- Witness for `c10_all_failures_invalid_token`: a correctly signed token
whose store-side session expired at time 100 is validated at time 130 — the
store lookup fails with `SessionExpired` and deletes the row, and the
middleware reports `InvalidToken`. -/
theorem c10_witness :
    jwt_auth { rows := [{ id := 1, user_id := 7, expires_at := 100, created_at := 0 }],
               nextId := 2 }
        "secret" 130 (some (jwtEncode "secret"
          { user_id := 7, exp := 100, iat := 0, nbf := 0 }))
      = ({ rows := [], nextId := 2 }, .error (.Authenticate .InvalidToken))
    ∧ (AppError.Authenticate .InvalidToken) = .Authenticate .InvalidToken :=
  ⟨by decide,
   c10_all_failures_invalid_token
     { rows := [{ id := 1, user_id := 7, expires_at := 100, created_at := 0 }], nextId := 2 }
     { rows := [], nextId := 2 } "secret" 130
     (some (jwtEncode "secret" { user_id := 7, exp := 100, iat := 0, nbf := 0 }))
     (.Authenticate .InvalidToken) (by decide)⟩

/-- C5: composing session creation, token encoding and token
decode-and-verify returns a session with the creating `user_id`: when
`Session::new` succeeds with session `s` and the verification happens at a
time `now'` before `s` expires, `Session::from_token` on the encoded token
succeeds, returns `s` itself (whose `user_id` is the input user id) and
leaves the store unchanged. -/
theorem c5_token_roundtrip
    (st st1 : SessionStore) (now now' uid : Int) (secret : String)
    (s : Session) (tok : Token)
    (hnew : Session.new st now uid = (st1, .ok s))
    (htok : Session.token secret now s = .ok tok)
    (hfresh : now' < s.expires_at) :
    Session.from_token st1 secret now' tok = (st1, .ok s) ∧ s.user_id = uid := by
  rcases hfind : (st.insert uid now).rows.find? (fun r => r.user_id == uid) with - | sess
  · simp [Session.new, Session.from_user_id, hfind] at hnew
  · simp only [Session.new, Session.from_user_id, hfind] at hnew
    by_cases hlt : now < sess.expires_at
    · rw [if_pos hlt] at hnew
      simp only [Prod.mk.injEq, Except.ok.injEq] at hnew
      obtain ⟨hst, hsess⟩ := hnew
      subst hst
      have hsess' : s = sess := hsess.symm
      subst hsess'
      have huid : s.user_id = uid := by simpa using List.find?_some hfind
      have htokv : tok = jwtEncode secret (Claims.from s now) := by
        simpa [Session.token] using htok.symm
      subst htokv
      refine ⟨?_, huid⟩
      have hcond : (signClaims secret (Claims.from s now)
            == signClaims secret (Claims.from s now)
          && decide (now' - 60 ≤ (Claims.from s now).exp)) = true := by
        simp [Claims.from]
        omega
      simp only [Session.from_token, jwtDecode, jwtEncode, hcond, if_true]
      simp only [Claims.from, huid]
      simp only [Session.from_user_id, hfind]
      rw [if_pos hfresh]
    · rw [if_neg hlt] at hnew
      simp at hnew

/-- Witness for `c5_token_roundtrip`: creating a session for user 7 on an
empty store at time 0 and verifying its token at time 100. -/
theorem c5_witness :
    Session.from_token
        { rows := [{ id := 1, user_id := 7, expires_at := 86400, created_at := 0 }],
          nextId := 2 }
        "secret" 100
        (jwtEncode "secret"
          (Claims.from { id := 1, user_id := 7, expires_at := 86400, created_at := 0 } 0))
      = ({ rows := [{ id := 1, user_id := 7, expires_at := 86400, created_at := 0 }],
           nextId := 2 },
         .ok { id := 1, user_id := 7, expires_at := 86400, created_at := 0 })
    ∧ Session.user_id { id := 1, user_id := 7, expires_at := 86400, created_at := 0 } = 7 :=
  c5_token_roundtrip SessionStore.empty
    { rows := [{ id := 1, user_id := 7, expires_at := 86400, created_at := 0 }], nextId := 2 }
    0 100 7 "secret"
    { id := 1, user_id := 7, expires_at := 86400, created_at := 0 }
    (jwtEncode "secret"
      (Claims.from { id := 1, user_id := 7, expires_at := 86400, created_at := 0 } 0))
    (by decide) rfl (by decide)

/-- C6: when the store's session for a user (here: the user's unique session
row `s`) has `expires_at ≤ now`, the lookup by user id fails with
`SessionExpired` and deletes the row, so a subsequent lookup for that user
returns the store's not-found error; a session whose `expires_at` is
strictly in the future is returned unchanged, with the store untouched. -/
theorem c6_expired_session_deleted
    (st : SessionStore) (now uid : Int) (s : Session)
    (h : st.rows.filter (fun r => r.user_id == uid) = [s]) :
    (s.expires_at ≤ now →
        Session.from_user_id st now uid
          = (s.delete st, .error (.Authenticate .SessionExpired))
        ∧ (Session.from_user_id (s.delete st) now uid).2
          = .error (.Diesel .NotFound))
    ∧ (now < s.expires_at →
        Session.from_user_id st now uid = (st, .ok s)) := by
  have hfind : st.rows.find? (fun r => r.user_id == uid) = some s :=
    find?_of_filter_eq_singleton _ _ _ h
  have hnone : (s.delete st).rows.find? (fun r => r.user_id == uid) = none := by
    rw [List.find?_eq_none]
    intro x hx hpx
    have hx' : x ∈ st.rows ∧ ¬x.id = s.id := by
      simpa [Session.delete] using hx
    obtain ⟨hmem, hid⟩ := hx'
    have hxs : x ∈ st.rows.filter (fun r => r.user_id == uid) :=
      List.mem_filter.mpr ⟨hmem, hpx⟩
    rw [h] at hxs
    have hx_eq : x = s := by simpa using hxs
    subst hx_eq
    exact hid rfl
  refine ⟨fun hexp => ⟨?_, ?_⟩, fun hlt => ?_⟩
  · simp only [Session.from_user_id, hfind]
    rw [if_neg (by omega)]
  · simp only [Session.from_user_id, hnone]
  · simp only [Session.from_user_id, hfind]
    rw [if_pos hlt]

/-- Witness for `c6_expired_session_deleted`: user 7's single session
expired at 100 and is looked up at 150. -/
theorem c6_witness :
    (Session.from_user_id
        { rows := [{ id := 1, user_id := 7, expires_at := 100, created_at := 0 }],
          nextId := 2 } 150 7
      = (Session.delete { id := 1, user_id := 7, expires_at := 100, created_at := 0 }
          { rows := [{ id := 1, user_id := 7, expires_at := 100, created_at := 0 }],
            nextId := 2 },
         .error (.Authenticate .SessionExpired))
    ∧ (Session.from_user_id
        (Session.delete { id := 1, user_id := 7, expires_at := 100, created_at := 0 }
          { rows := [{ id := 1, user_id := 7, expires_at := 100, created_at := 0 }],
            nextId := 2 }) 150 7).2
      = .error (.Diesel .NotFound)) :=
  (c6_expired_session_deleted
    { rows := [{ id := 1, user_id := 7, expires_at := 100, created_at := 0 }], nextId := 2 }
    150 7 { id := 1, user_id := 7, expires_at := 100, created_at := 0 }
    (by decide)).1 (by decide)

/-- C8 (counterexample): the at-most-one-active-session invariant is not
preserved by session creation.  Starting from the empty store, a creation
for user 7 at time 0 and another at time 10 — both reachable operations —
leave two session rows for user 7 that are both unexpired at time 10; the
second creation also returns the *first* (older) row. -/
theorem c8_two_active_sessions_counterexample :
    ((Session.new (Session.new SessionStore.empty 0 7).1 10 7).1.rows.filter
        (fun s => s.user_id == 7 && decide (10 < s.expires_at))).length = 2
    ∧ (Session.new (Session.new SessionStore.empty 0 7).1 10 7).2
      = .ok { id := 1, user_id := 7, expires_at := 86400, created_at := 0 } := by
  decide

/-- C8 (amended): session creation does not enforce at most one active
session per user — whenever it succeeds it appends exactly one new row for
that user to the session table and removes none, so a user who already has
an active session row ends up with more than one; the returned session does
carry the requested `user_id`. -/
theorem c8_creation_appends_row
    (st st' : SessionStore) (now uid : Int) (s : Session)
    (hnew : Session.new st now uid = (st', .ok s)) :
    st'.rows = st.rows
      ++ [{ id := st.nextId, user_id := uid, expires_at := now + 86400,
            created_at := now }]
    ∧ s.user_id = uid := by
  rcases hfind : (st.insert uid now).rows.find? (fun r => r.user_id == uid) with - | sess
  · simp [Session.new, Session.from_user_id, hfind] at hnew
  · simp only [Session.new, Session.from_user_id, hfind] at hnew
    by_cases hlt : now < sess.expires_at
    · rw [if_pos hlt] at hnew
      simp only [Prod.mk.injEq, Except.ok.injEq] at hnew
      obtain ⟨hst, hsess⟩ := hnew
      subst hst
      subst hsess
      exact ⟨rfl, by simpa using List.find?_some hfind⟩
    · rw [if_neg hlt] at hnew
      simp at hnew

/-- Witness for `c8_creation_appends_row`: creation for user 7 on the empty
store at time 0. -/
theorem c8_witness :
    ({ rows := [{ id := 1, user_id := 7, expires_at := 86400, created_at := 0 }],
       nextId := 2 } : SessionStore).rows
      = SessionStore.empty.rows
        ++ [{ id := SessionStore.empty.nextId, user_id := 7,
              expires_at := 0 + 86400, created_at := 0 }]
    ∧ Session.user_id { id := 1, user_id := 7, expires_at := 86400, created_at := 0 } = 7 :=
  c8_creation_appends_row SessionStore.empty
    { rows := [{ id := 1, user_id := 7, expires_at := 86400, created_at := 0 }], nextId := 2 }
    0 7 { id := 1, user_id := 7, expires_at := 86400, created_at := 0 }
    (by decide)

end FinanceFusion
